import Mathlib

/-!
Shallow embedding of the detection request pipeline of `src/app.py`
(the `/api/predict` Flask handler backed by Google Cloud Vision
object localization), together with theorems settling the frozen
claims about it.

Modelling conventions:
- Normalized vertex coordinates and confidence scores are `Rat`
  (the source receives floats from the backend and passes them
  through unchanged; no arithmetic is performed on them, so `Rat`
  is a faithful carrier).
- The cloud backend (`vision_client.object_localization`) is an
  external call; it is modelled as a function from the uploaded
  bytes to `Except String (List LocalizedObjectAnnotation)`, an
  exception being carried as its message string (Python renders an
  exception `e` as `f"{e}"`).
- The module-global `vision_client` (set once at startup, `None` on
  initialization failure) is threaded through the handler as
  explicit state in / state out; the handler never assigns it, which
  the embedding reflects by returning it unchanged on every path.
- The observable side effects the claims mention (reading the
  uploaded file, invoking the backend) are recorded in a trace list.
-/

namespace LuminousApi

/-- A normalized polygon vertex returned by the cloud backend
(`obj.bounding_poly.normalized_vertices[i]`). -/
structure NormalizedVertex where
  x : Rat
  y : Rat
deriving DecidableEq

/-- One backend-native detection
(`response.localized_object_annotations[i]`). -/
structure LocalizedObjectAnnotation where
  name : String
  score : Rat
  normalized_vertices : List NormalizedVertex
deriving DecidableEq

/-- The canonical bounding box the handler emits:
`[x_min, y_min, x_max, y_max]` (list positions 0..3 of the
`bounding_box` value built at `src/app.py:199-204`). -/
structure BoundingBox where
  x_min : Rat
  y_min : Rat
  x_max : Rat
  y_max : Rat
deriving DecidableEq

/-- One entry of `processed_results` (`src/app.py:196-205`). -/
structure Detection where
  class_name : String
  confidence : Rat
  bounding_box : BoundingBox
deriving DecidableEq

/-- The JSON body of a 200 response (`final_response`,
`src/app.py:207-212`). -/
structure SuccessBody where
  status : String
  person_detected : Bool
  person_count : Nat
  detections : List Detection
deriving DecidableEq

/-- A response of the handler: either a 200 with the success body,
or an error JSON body with its HTTP status code. -/
inductive PredictResponse where
  | okResp (body : SuccessBody)
  | errorResp (statusCode : Nat) (error : String)
deriving DecidableEq

/-- The uploaded `image` form file: Werkzeug filename plus byte
buffer (bytes modelled as `List Nat`). -/
structure UploadedFile where
  filename : String
  content : List Nat
deriving DecidableEq

/-- Observable side effects of one request: reading the uploaded
file (`image_file.read()`, `src/app.py:182`) and invoking the
backend (`vision_client.object_localization`, `src/app.py:187`). -/
inductive Effect where
  | readFile
  | backendCall
deriving DecidableEq

/-- The cloud backend as seen through
`vision_client.object_localization(image=image)`: from the uploaded
bytes to either the annotation list or a raised exception text. -/
abbrev Backend := List Nat → Except String (List LocalizedObjectAnnotation)

/-- Python `str.lower()` as used on backend class labels
(`obj.name.lower()`, `src/app.py:194`): lowercase every character.
(The labels the deployment compares are ASCII, where `Char.toLower`
agrees with Python.) -/
def strLower (s : String) : String := ⟨s.data.map Char.toLower⟩

/-- The result-processing loop (`src/app.py:191-205`): walk the
annotations in order; an annotation whose lowercased name is
`"person"` increments the count and contributes a `Detection` built
from normalized vertices 0 and 2; any other annotation is skipped.
A missing vertex index raises (Python `IndexError`), aborting the
whole loop. Returns `processed_results` together with
`person_count`. -/
def processAnnotations : List LocalizedObjectAnnotation →
    Except String (List Detection × Nat)
  | [] => Except.ok ([], 0)
  | obj :: rest =>
    if strLower obj.name = "person" then
      match obj.normalized_vertices[0]?, obj.normalized_vertices[2]? with
      | some v0, some v2 =>
        match processAnnotations rest with
        | Except.ok (ds, n) =>
          Except.ok (⟨obj.name, obj.score, ⟨v0.x, v0.y, v2.x, v2.y⟩⟩ :: ds, n + 1)
        | Except.error e => Except.error e
      | _, _ => Except.error "list index out of range"
    else
      processAnnotations rest

/-- The `/api/predict` handler (`predict`, `src/app.py:160-219`).
Arguments: the module-global `vision_client` (as state in) and
`request.files['image']` when present. Returns the response, the
trace of observable effects, and the `vision_client` state after the
request (state out). Control flow mirrors the source exactly:
1. `vision_client is None` → 503;
2. `'image' not in request.files` → 400;
3. `image_file.filename == ''` → 400;
4. try: read the file, call the backend, process annotations,
   return the 200 body; any exception → 500 with the exception text
   interpolated into the message. -/
def predict (vision_client : Option Backend) (files_image : Option UploadedFile) :
    PredictResponse × List Effect × Option Backend :=
  match vision_client with
  | none =>
    (PredictResponse.errorResp 503 "Vision API service is unavailable.", [], none)
  | some client =>
    match files_image with
    | none =>
      (PredictResponse.errorResp 400 "No image file provided.", [], some client)
    | some image_file =>
      if image_file.filename = "" then
        (PredictResponse.errorResp 400 "No selected file.", [], some client)
      else
        match client image_file.content with
        | Except.error e =>
          (PredictResponse.errorResp 500 ("An error occurred during API call: " ++ e),
           [Effect.readFile, Effect.backendCall], some client)
        | Except.ok anns =>
          match processAnnotations anns with
          | Except.error e =>
            (PredictResponse.errorResp 500 ("An error occurred during API call: " ++ e),
             [Effect.readFile, Effect.backendCall], some client)
          | Except.ok (ds, n) =>
            (PredictResponse.okResp ⟨"success", decide (0 < n), n, ds⟩,
             [Effect.readFile, Effect.backendCall], some client)

/-- The class-filter predicate applied by the loop: keep exactly the
annotations whose lowercased name is the target class
(`obj.name.lower() == 'person'`, `src/app.py:194`). -/
def isPerson (o : LocalizedObjectAnnotation) : Bool :=
  decide (strLower o.name = "person")

/-- The vertex-order assumption the spec attaches to the cloud
backend: when both vertex 0 and vertex 2 are present, vertex 0 is
the min corner and vertex 2 the max corner of the box. -/
def vertOrdered (obj : LocalizedObjectAnnotation) : Bool :=
  match obj.normalized_vertices[0]?, obj.normalized_vertices[2]? with
  | some v0, some v2 => decide (v0.x ≤ v2.x ∧ v0.y ≤ v2.y)
  | _, _ => true

/-! Concrete inputs used by witnesses and counterexamples. -/

/-- An axis-aligned unit square emitted in the order the spec
assumes: top-left first, so vertex 0 is the min corner and vertex 2
the max corner. -/
def unitSquare : List NormalizedVertex := [⟨0, 0⟩, ⟨1, 0⟩, ⟨1, 1⟩, ⟨0, 1⟩]

/-- An annotation whose label matches the target class only up to
case. -/
def personAnn : LocalizedObjectAnnotation := ⟨"Person", mkRat 9 10, unitSquare⟩

/-- An annotation of a non-target class. -/
def dogAnn : LocalizedObjectAnnotation := ⟨"dog", mkRat 1 2, unitSquare⟩

/-- A nonempty upload with a nonempty filename. -/
def sampleFile : UploadedFile := ⟨"sample.jpg", [137, 80]⟩

/-- A backend returning one matching and one non-matching
annotation. -/
def demoClient : Backend := fun _ => Except.ok [personAnn, dogAnn]

/-- The 200 body `predict` builds for `demoClient` on any valid
upload. -/
def demoBody : SuccessBody :=
  ⟨"success", true, 1, [⟨"Person", mkRat 9 10, ⟨0, 0, 1, 1⟩⟩]⟩

/-- A person annotation whose square is emitted starting at the
bottom-right corner, so vertex 0 is the max corner and vertex 2 the
min corner. -/
def reversedAnn : LocalizedObjectAnnotation :=
  ⟨"person", 1, [⟨1, 1⟩, ⟨0, 1⟩, ⟨0, 0⟩, ⟨1, 0⟩]⟩

/-- A backend returning only `reversedAnn`. -/
def reversedClient : Backend := fun _ => Except.ok [reversedAnn]

/-- The 200 body `predict` builds for `reversedClient`: its box has
`x_min = 1 > 0 = x_max` and `y_min = 1 > 0 = y_max`. -/
def reversedBody : SuccessBody :=
  ⟨"success", true, 1, [⟨"person", 1, ⟨1, 1, 0, 0⟩⟩]⟩

/-- A backend whose remote call raises an exception rendered as
`"boom"`. -/
def boomClient : Backend := fun _ => Except.error "boom"

/-- A backend returning no annotations (used with an empty byte
buffer). -/
def emptyBufClient : Backend := fun _ => Except.ok []

/-! Helper lemmas about the processing loop and the handler. -/

theorem processAnnotations_count (anns : List LocalizedObjectAnnotation)
    (ds : List Detection) (n : Nat)
    (h : processAnnotations anns = Except.ok (ds, n)) : n = ds.length := by
  induction anns generalizing ds n with
  | nil =>
    simp only [processAnnotations, Except.ok.injEq, Prod.mk.injEq] at h
    simp [← h.1, ← h.2]
  | cons obj rest ih =>
    by_cases hp : strLower obj.name = "person"
    · cases h0 : obj.normalized_vertices[0]? with
      | none => simp [processAnnotations, hp, h0] at h
      | some v0 =>
        cases h2 : obj.normalized_vertices[2]? with
        | none => simp [processAnnotations, hp, h0, h2] at h
        | some v2 =>
          cases hrec : processAnnotations rest with
          | error e => simp [processAnnotations, hp, h0, h2, hrec] at h
          | ok p =>
            obtain ⟨ds0, n0⟩ := p
            simp only [processAnnotations, hp, if_true, h0, h2, hrec,
              Except.ok.injEq, Prod.mk.injEq] at h
            obtain ⟨hds, hn⟩ := h
            subst hds
            subst hn
            simp [ih ds0 n0 hrec]
    · simp only [processAnnotations, hp, if_false] at h
      exact ih ds n h

theorem processAnnotations_names (anns : List LocalizedObjectAnnotation)
    (ds : List Detection) (n : Nat)
    (h : processAnnotations anns = Except.ok (ds, n)) :
    ds.map Detection.class_name =
      (anns.filter isPerson).map LocalizedObjectAnnotation.name ∧
    n = (anns.filter isPerson).length := by
  induction anns generalizing ds n with
  | nil =>
    simp only [processAnnotations, Except.ok.injEq, Prod.mk.injEq] at h
    simp [← h.1, ← h.2]
  | cons obj rest ih =>
    by_cases hp : strLower obj.name = "person"
    · cases h0 : obj.normalized_vertices[0]? with
      | none => simp [processAnnotations, hp, h0] at h
      | some v0 =>
        cases h2 : obj.normalized_vertices[2]? with
        | none => simp [processAnnotations, hp, h0, h2] at h
        | some v2 =>
          cases hrec : processAnnotations rest with
          | error e => simp [processAnnotations, hp, h0, h2, hrec] at h
          | ok p =>
            obtain ⟨ds0, n0⟩ := p
            simp only [processAnnotations, hp, if_true, h0, h2, hrec,
              Except.ok.injEq, Prod.mk.injEq] at h
            obtain ⟨hds, hn⟩ := h
            subst hds
            subst hn
            obtain ⟨ihn, ihl⟩ := ih ds0 n0 hrec
            simp [List.filter, isPerson, hp, ihn, ihl]
    · simp only [processAnnotations, hp, if_false] at h
      obtain ⟨ihn, ihl⟩ := ih ds n h
      simp [List.filter, isPerson, hp, ihn, ihl]

theorem processAnnotations_mem (anns : List LocalizedObjectAnnotation)
    (ds : List Detection) (n : Nat) (d : Detection)
    (h : processAnnotations anns = Except.ok (ds, n)) (hd : d ∈ ds) :
    ∃ obj ∈ anns, strLower obj.name = "person" ∧
      d.class_name = obj.name ∧ d.confidence = obj.score ∧
      ∃ v0 v2, obj.normalized_vertices[0]? = some v0 ∧
        obj.normalized_vertices[2]? = some v2 ∧
        d.bounding_box = ⟨v0.x, v0.y, v2.x, v2.y⟩ := by
  induction anns generalizing ds n with
  | nil =>
    simp only [processAnnotations, Except.ok.injEq, Prod.mk.injEq] at h
    rw [← h.1] at hd
    simp at hd
  | cons obj rest ih =>
    by_cases hp : strLower obj.name = "person"
    · cases h0 : obj.normalized_vertices[0]? with
      | none => simp [processAnnotations, hp, h0] at h
      | some v0 =>
        cases h2 : obj.normalized_vertices[2]? with
        | none => simp [processAnnotations, hp, h0, h2] at h
        | some v2 =>
          cases hrec : processAnnotations rest with
          | error e => simp [processAnnotations, hp, h0, h2, hrec] at h
          | ok p =>
            obtain ⟨ds0, n0⟩ := p
            simp only [processAnnotations, hp, if_true, h0, h2, hrec,
              Except.ok.injEq, Prod.mk.injEq] at h
            obtain ⟨hds, hn⟩ := h
            rw [← hds] at hd
            rcases List.mem_cons.mp hd with hhead | htail
            · exact ⟨obj, List.mem_cons_self _ _, hp, by simp [hhead],
                by simp [hhead], v0, v2, h0, h2, by simp [hhead]⟩
            · obtain ⟨o, ho, hrest⟩ := ih ds0 n0 hrec htail
              exact ⟨o, List.mem_cons_of_mem _ ho, hrest⟩
    · simp only [processAnnotations, hp, if_false] at h
      obtain ⟨o, ho, hrest⟩ := ih ds n h hd
      exact ⟨o, List.mem_cons_of_mem _ ho, hrest⟩

theorem predict_ok_elim (vc : Option Backend) (fi : Option UploadedFile)
    (body : SuccessBody)
    (h : (predict vc fi).1 = PredictResponse.okResp body) :
    ∃ client image_file anns ds n, vc = some client ∧ fi = some image_file ∧
      ¬ image_file.filename = "" ∧
      client image_file.content = Except.ok anns ∧
      processAnnotations anns = Except.ok (ds, n) ∧
      body = ⟨"success", decide (0 < n), n, ds⟩ := by
  cases vc with
  | none => simp [predict] at h
  | some client =>
    cases fi with
    | none => simp [predict] at h
    | some image_file =>
      by_cases hf : image_file.filename = ""
      · simp [predict, hf] at h
      · cases hcl : client image_file.content with
        | error e => simp [predict, hf, hcl] at h
        | ok anns =>
          cases hpa : processAnnotations anns with
          | error e => simp [predict, hf, hcl, hpa] at h
          | ok p =>
            obtain ⟨ds, n⟩ := p
            simp only [predict, hf, if_false, hcl, hpa] at h
            exact ⟨client, image_file, anns, ds, n, rfl, rfl, hf, hcl, hpa,
              (PredictResponse.okResp.injEq _ _).mp h.symm⟩

/-- Claim C1: every successful (HTTP 200) response body built by the
predict handler satisfies person_detected == (person_count > 0) and
person_count == length(detections), where detections is the
filtered, normalized list in the response body. -/
theorem predict_ok_count_invariant (vc : Option Backend)
    (fi : Option UploadedFile) (body : SuccessBody)
    (h : (predict vc fi).1 = PredictResponse.okResp body) :
    body.person_detected = decide (0 < body.person_count) ∧
    body.person_count = body.detections.length := by
  obtain ⟨c, f, anns, ds, n, -, -, -, -, hpa, hb⟩ := predict_ok_elim vc fi body h
  subst hb
  simpa using processAnnotations_count anns ds n hpa

theorem predict_ok_count_invariant_witness :
    demoBody.person_detected = decide (0 < demoBody.person_count) ∧
    demoBody.person_count = demoBody.detections.length :=
  predict_ok_count_invariant (some demoClient) (some sampleFile) demoBody
    (by decide)

/-- Claim C2: the normalization step retains exactly the annotations
whose class label equals "person" case-insensitively, and
person_count and person_detected are computed only from the filtered
entries. -/
theorem predict_filters_case_insensitive (client : Backend)
    (file : UploadedFile) (anns : List LocalizedObjectAnnotation)
    (body : SuccessBody)
    (hc : client file.content = Except.ok anns)
    (h : (predict (some client) (some file)).1 = PredictResponse.okResp body) :
    body.detections.map Detection.class_name =
      (anns.filter isPerson).map LocalizedObjectAnnotation.name ∧
    body.person_count = (anns.filter isPerson).length ∧
    body.person_detected = decide (0 < (anns.filter isPerson).length) := by
  obtain ⟨c, f, anns2, ds, n, hc2, hf2, hne, hcl, hpa, hb⟩ :=
    predict_ok_elim _ _ body h
  injection hc2 with hc3
  injection hf2 with hf3
  subst hc3
  subst hf3
  rw [hc] at hcl
  injection hcl with hanns
  subst hanns
  subst hb
  obtain ⟨hnames, hlen⟩ := processAnnotations_names anns ds n hpa
  exact ⟨hnames, hlen, by rw [hlen]⟩

theorem predict_filters_case_insensitive_witness :
    demoBody.detections.map Detection.class_name =
      (([personAnn, dogAnn]).filter isPerson).map LocalizedObjectAnnotation.name ∧
    demoBody.person_count = (([personAnn, dogAnn]).filter isPerson).length ∧
    demoBody.person_detected =
      decide (0 < (([personAnn, dogAnn]).filter isPerson).length) :=
  predict_filters_case_insensitive demoClient sampleFile [personAnn, dogAnn]
    demoBody rfl (by decide)

/-- Claim C3: every retained detection recovers its bounding_box
from exactly the first and third normalized vertices of its
annotation: the first vertex gives (x_min, y_min) and the third
gives (x_max, y_max). -/
theorem predict_box_from_vertices (vc : Option Backend)
    (fi : Option UploadedFile) (body : SuccessBody) (d : Detection)
    (h : (predict vc fi).1 = PredictResponse.okResp body)
    (hd : d ∈ body.detections) :
    ∃ client file anns, vc = some client ∧ fi = some file ∧
      client file.content = Except.ok anns ∧
      ∃ obj ∈ anns, strLower obj.name = "person" ∧
        d.class_name = obj.name ∧ d.confidence = obj.score ∧
        ∃ v0 v2, obj.normalized_vertices[0]? = some v0 ∧
          obj.normalized_vertices[2]? = some v2 ∧
          d.bounding_box = ⟨v0.x, v0.y, v2.x, v2.y⟩ := by
  obtain ⟨c, f, anns, ds, n, hvc, hfi, hne, hcl, hpa, hb⟩ :=
    predict_ok_elim vc fi body h
  subst hb
  exact ⟨c, f, anns, hvc, hfi, hcl, processAnnotations_mem anns ds n d hpa hd⟩

theorem predict_box_from_vertices_witness :
    ∃ client file anns,
      (some demoClient : Option Backend) = some client ∧
      (some sampleFile : Option UploadedFile) = some file ∧
      client file.content = Except.ok anns ∧
      ∃ obj ∈ anns, strLower obj.name = "person" ∧
        (⟨"Person", mkRat 9 10, ⟨0, 0, 1, 1⟩⟩ : Detection).class_name = obj.name ∧
        (⟨"Person", mkRat 9 10, ⟨0, 0, 1, 1⟩⟩ : Detection).confidence = obj.score ∧
        ∃ v0 v2, obj.normalized_vertices[0]? = some v0 ∧
          obj.normalized_vertices[2]? = some v2 ∧
          (⟨"Person", mkRat 9 10, ⟨0, 0, 1, 1⟩⟩ : Detection).bounding_box =
            ⟨v0.x, v0.y, v2.x, v2.y⟩ :=
  predict_box_from_vertices (some demoClient) (some sampleFile) demoBody
    ⟨"Person", mkRat 9 10, ⟨0, 0, 1, 1⟩⟩ (by decide) (by decide)



/-- Claim C4 counterexample: with the square emitted starting at the
bottom-right corner, the handler returns a 200 response whose box
violates x_min ≤ x_max and y_min ≤ y_max. -/
theorem predict_box_order_counterexample :
    (predict (some reversedClient) (some sampleFile)).1 =
      PredictResponse.okResp reversedBody ∧
    ¬ (∀ d ∈ reversedBody.detections,
        d.bounding_box.x_min ≤ d.bounding_box.x_max ∧
        d.bounding_box.y_min ≤ d.bounding_box.y_max) := by
  constructor
  · decide
  · decide

/-- Claim C4 (amended): when every annotation the backend returns
has its vertex 0 below-left of its vertex 2 (the fixed emission
order the spec assumes), every bounding_box in the 200 response
satisfies x_min ≤ x_max and y_min ≤ y_max. -/
theorem predict_box_order_of_ordered_vertices (client : Backend)
    (file : UploadedFile) (anns : List LocalizedObjectAnnotation)
    (body : SuccessBody)
    (hc : client file.content = Except.ok anns)
    (hord : ∀ obj ∈ anns, vertOrdered obj = true)
    (h : (predict (some client) (some file)).1 = PredictResponse.okResp body) :
    ∀ d ∈ body.detections,
      d.bounding_box.x_min ≤ d.bounding_box.x_max ∧
      d.bounding_box.y_min ≤ d.bounding_box.y_max := by
  intro d hd
  obtain ⟨c, f, anns2, ds, n, hc2, hf2, hne, hcl, hpa, hb⟩ :=
    predict_ok_elim _ _ body h
  injection hc2 with hc3
  injection hf2 with hf3
  subst hc3
  subst hf3
  rw [hc] at hcl
  injection hcl with hanns
  subst hanns
  subst hb
  obtain ⟨obj, hobj, hpname, -, -, v0, v2, h0, h2, hbox⟩ :=
    processAnnotations_mem anns ds n d hpa hd
  have hv := hord obj hobj
  simp only [vertOrdered, h0, h2, decide_eq_true_eq] at hv
  rw [hbox]
  exact hv

theorem predict_box_order_of_ordered_vertices_witness :
    (⟨"Person", mkRat 9 10, ⟨0, 0, 1, 1⟩⟩ : Detection).bounding_box.x_min ≤
      (⟨"Person", mkRat 9 10, ⟨0, 0, 1, 1⟩⟩ : Detection).bounding_box.x_max ∧
    (⟨"Person", mkRat 9 10, ⟨0, 0, 1, 1⟩⟩ : Detection).bounding_box.y_min ≤
      (⟨"Person", mkRat 9 10, ⟨0, 0, 1, 1⟩⟩ : Detection).bounding_box.y_max :=
  predict_box_order_of_ordered_vertices demoClient sampleFile
    [personAnn, dogAnn] demoBody rfl (by decide) (by decide)
    ⟨"Person", mkRat 9 10, ⟨0, 0, 1, 1⟩⟩ (by decide)

/-- Claim C5: when the backend failed to initialize at startup, every
request returns HTTP 503 with the unavailability message, with no
file read and no backend call (empty effect trace), whatever the
request contains. -/
theorem predict_unavailable_503 (fi : Option UploadedFile) :
    predict none fi =
      (PredictResponse.errorResp 503 "Vision API service is unavailable.",
       [], none) := rfl

/-- Claim C6 counterexample: a request with no image part while the
backend is unavailable returns 503, not the 400 missing-input error
the claim requires, because the handler checks backend availability
before input presence. -/
theorem predict_check_order_counterexample :
    (predict none none).1 ≠
      PredictResponse.errorResp 400 "No image file provided." ∧
    (predict none none).1 =
      PredictResponse.errorResp 503 "Vision API service is unavailable." := by
  constructor
  · decide
  · rfl

/-- Claim C6 (amended): the handler checks backend availability
first, then input presence, then decodes and invokes the backend;
hence with the backend unavailable every request returns 503 (no
effects), and with the backend available a request with no image
part returns the 400 missing-input error (no effects). -/
theorem predict_availability_checked_first (client : Backend)
    (fi : Option UploadedFile) :
    predict none fi =
      (PredictResponse.errorResp 503 "Vision API service is unavailable.",
       [], none) ∧
    predict (some client) none =
      (PredictResponse.errorResp 400 "No image file provided.",
       [], some client) :=
  ⟨rfl, rfl⟩

/-- Claim C7 counterexample: when the backend raises an exception
rendered as "boom", the 500 body embeds that text in its error
message rather than the generic detection-failure message. -/
theorem predict_500_echo_counterexample :
    (predict (some boomClient) (some sampleFile)).1 =
      PredictResponse.errorResp 500
        ("An error occurred during API call: " ++ "boom") ∧
    (predict (some boomClient) (some sampleFile)).1 ≠
      PredictResponse.errorResp 500 "An error occurred during detection." := by
  constructor
  · decide
  · decide

/-- Claim C7 (amended): when the backend call raises an exception
rendered as e, the response is HTTP 500 and its error message is
"An error occurred during API call: " followed by e — the exception
text is echoed to the caller. -/
theorem predict_500_message (client : Backend) (file : UploadedFile)
    (e : String) (hf : ¬ file.filename = "")
    (hc : client file.content = Except.error e) :
    predict (some client) (some file) =
      (PredictResponse.errorResp 500 ("An error occurred during API call: " ++ e),
       [Effect.readFile, Effect.backendCall], some client) := by
  simp [predict, hf, hc]

theorem predict_500_message_witness :
    predict (some boomClient) (some sampleFile) =
      (PredictResponse.errorResp 500
        ("An error occurred during API call: " ++ "boom"),
       [Effect.readFile, Effect.backendCall], some boomClient) :=
  predict_500_message boomClient sampleFile "boom" (by decide) rfl

/-- Claim C8 counterexample: an uploaded image file with a nonempty
filename but an empty byte buffer is not rejected with 400; the
handler proceeds and the backend is called. -/
theorem predict_empty_buffer_counterexample :
    (predict (some emptyBufClient) (some ⟨"a.jpg", []⟩)).1 ≠
      PredictResponse.errorResp 400 "No selected file." ∧
    Effect.backendCall ∈
      (predict (some emptyBufClient) (some ⟨"a.jpg", []⟩)).2.1 := by
  constructor
  · decide
  · decide

/-- Claim C8 (amended): with the backend available, an uploaded
image file whose filename is empty is rejected with HTTP 400 and
body error "No selected file.", with no file read and no backend
call; an empty byte buffer alone does not trigger this rejection. -/
theorem predict_empty_filename_400 (client : Backend)
    (file : UploadedFile) (h : file.filename = "") :
    predict (some client) (some file) =
      (PredictResponse.errorResp 400 "No selected file.", [], some client) := by
  simp [predict, h]

theorem predict_empty_filename_400_witness :
    predict (some demoClient) (some ⟨"", []⟩) =
      (PredictResponse.errorResp 400 "No selected file.", [], some demoClient) :=
  predict_empty_filename_400 demoClient ⟨"", []⟩ rfl

/-- Claim C9: handling a request never modifies the process-wide
backend state: whatever the outcome, vision_client is unchanged
afterwards, so any subsequent request gives the same result as it
would from the initial state. -/
theorem predict_preserves_state (vc : Option Backend)
    (fi fi2 : Option UploadedFile) :
    (predict vc fi).2.2 = vc ∧
    predict ((predict vc fi).2.2) fi2 = predict vc fi2 := by
  have hstate : (predict vc fi).2.2 = vc := by
    cases vc with
    | none => rfl
    | some client =>
      cases fi with
      | none => rfl
      | some f =>
        by_cases hf : f.filename = ""
        · simp [predict, hf]
        · cases hcl : client f.content with
          | error e => simp [predict, hf, hcl]
          | ok anns =>
            cases hpa : processAnnotations anns with
            | error e => simp [predict, hf, hcl, hpa]
            | ok p =>
              obtain ⟨ds, n⟩ := p
              simp [predict, hf, hcl, hpa]
  exact ⟨hstate, by rw [hstate]⟩

/-- Claim C10: every successful (HTTP 200) response body carries a
status field whose value is the string "success". -/
theorem predict_ok_status_success (vc : Option Backend)
    (fi : Option UploadedFile) (body : SuccessBody)
    (h : (predict vc fi).1 = PredictResponse.okResp body) :
    body.status = "success" := by
  obtain ⟨c, f, anns, ds, n, -, -, -, -, -, hb⟩ := predict_ok_elim vc fi body h
  rw [hb]

theorem predict_ok_status_success_witness :
    demoBody.status = "success" :=
  predict_ok_status_success (some demoClient) (some sampleFile) demoBody
    (by decide)

end LuminousApi
